import Mathlib

/-!
Shallow embedding of `catalog/dags/common/sensors/single_run_external_dags_sensor.py`
(class `SingleRunExternalDAGsSensor`), together with proofs about its behaviour.

The sensor reads host-owned storage records (DagModel, DagRun, TaskInstance),
checks the existence of external DAGs once on the first poke, and afterwards
reports readiness iff no peer DAG run is simultaneously RUNNING with a
successful instance of the sensor's own task.
-/

/-- Airflow run/task states are strings (`airflow.utils.state.State`). -/
def State.RUNNING : String := "running"

/-- Airflow `State.SUCCESS`. -/
def State.SUCCESS : String := "success"

/-- A row of the host's `DagModel` table: a DAG id and its source file location. -/
structure DagModelRec where
  dag_id : String
  fileloc : String
deriving DecidableEq, Repr

/-- A reloaded DAG as produced by `DagBag(fileloc).get_dag(dag_id)`:
all we use of it is its set of task ids. -/
structure Dag where
  task_ids : List String
deriving DecidableEq, Repr

/-- `dag.has_task(task_id)` membership test on the reloaded DAG. -/
def Dag.has_task (d : Dag) (tid : String) : Bool :=
  d.task_ids.contains tid

/-- A row of the host's `DagRun` table. -/
structure DagRunRec where
  dag_id : String
  run_id : String
  state : String
deriving DecidableEq, Repr

/-- A row of the host's `TaskInstance` table (the fields the sensor queries). -/
structure TaskInstanceRec where
  run_id : String
  task_id : String
  state : String
deriving DecidableEq, Repr

/-- The host-provided storage visible through the SQLAlchemy session, plus the
filesystem (`os.path.exists`) and DAG-file reloading (`DagBag(...).get_dag`)
capabilities the sensor consults during its existence check. -/
structure Session where
  dag_models : List DagModelRec
  path_exists : String → Bool
  get_dag : String → String → Dag
  dag_runs : List DagRunRec
  task_instances : List TaskInstanceRec

/-- The three `AirflowException`s `_check_for_existence` can raise, each
carrying the identifiers interpolated into the exception message. -/
inductive CheckError where
  | notFound (dag_id : String)
  | deleted (dag_id : String)
  | missingTask (dag_id : String) (task_id : String)
deriving DecidableEq, Repr

/-- The sensor instance: its three construction parameters, the task id Airflow
assigns to it, and the `_has_checked_params` one-shot flag (False at
construction). -/
structure Sensor where
  external_dag_ids : List String
  check_existence : Bool
  allow_concurrent_runs : Bool
  task_id : String
  has_checked_params : Bool
deriving DecidableEq, Repr

/-- `SingleRunExternalDAGsSensor._check_for_existence`: iterate over
`external_dag_ids`; for each, look the DAG up in `DagModel` (raising if
absent), check its file still exists (raising if not), reload it and check it
has a task named `task_id` (raising if not). -/
def check_for_existence (task_id : String) (session : Session) :
    List String → Except CheckError Unit
  | [] => Except.ok ()
  | dag_id :: rest =>
    match (session.dag_models.filter (fun m => m.dag_id == dag_id)).head? with
    | none => Except.error (CheckError.notFound dag_id)
    | some dag_to_wait =>
      if session.path_exists dag_to_wait.fileloc = false then
        Except.error (CheckError.deleted dag_id)
      else
        let refreshed_dag_info := session.get_dag dag_to_wait.fileloc dag_id
        if refreshed_dag_info.has_task task_id = false then
          Except.error (CheckError.missingTask dag_id task_id)
        else
          check_for_existence task_id session rest

/-- The task instances the `get_count` join associates with one DagRun row:
same `run_id`, the sensor's own `task_id`, state SUCCESS. -/
def matching_tis (s : Sensor) (session : Session) (dr : DagRunRec) :
    List TaskInstanceRec :=
  session.task_instances.filter (fun ti =>
    ti.run_id == dr.run_id && ti.task_id == s.task_id && ti.state == State.SUCCESS)

/-- The DagRun rows passing `get_count`'s first filter: dag id among
`external_dag_ids` and state RUNNING. -/
def running_peer_runs (s : Sensor) (session : Session) : List DagRunRec :=
  session.dag_runs.filter (fun dr =>
    s.external_dag_ids.contains dr.dag_id && dr.state == State.RUNNING)

/-- `SingleRunExternalDAGsSensor.get_count`: the SQL count of the join of
RUNNING peer DagRuns with SUCCESS TaskInstances of the sensor's task id in the
same run (one row per matching DagRun/TaskInstance pair). -/
def get_count (s : Sensor) (session : Session) : Nat :=
  ((running_peer_runs s session).map
    (fun dr => (matching_tis s session dr).length)).sum

/-- What one call to `poke` produces: the value returned (or the exception
raised), the instance state after the call, the storage after the call, and
whether `_check_for_existence` was invoked during the call. -/
structure CallOutcome where
  result : Except CheckError Bool
  sensor : Sensor
  session : Session
  ran_existence_check : Bool

/-- `SingleRunExternalDAGsSensor.poke`. On the first call (flag unset):
if `allow_concurrent_runs`, return True immediately without setting the flag;
otherwise run `_check_for_existence` when `check_existence` is set (an
exception propagates before the flag assignment, leaving the instance
unchanged) and then set `_has_checked_params`. Every non-early-returning call
ends by returning `get_count(session) == 0`. -/
def poke (s : Sensor) (session : Session) : CallOutcome :=
  if s.has_checked_params = false then
    if s.allow_concurrent_runs then
      ⟨Except.ok true, s, session, false⟩
    else
      match (if s.check_existence then
               check_for_existence s.task_id session s.external_dag_ids
             else Except.ok ()) with
      | Except.error e => ⟨Except.error e, s, session, true⟩
      | Except.ok () =>
        let s1 : Sensor := { s with has_checked_params := true }
        ⟨Except.ok (get_count s1 session == 0), s1, session, s.check_existence⟩
  else
    ⟨Except.ok (get_count s session == 0), s, session, false⟩

/-- `True` iff the call returned normally (no exception). -/
def returnedNormally (o : CallOutcome) : Bool :=
  match o.result with
  | Except.ok _ => true
  | Except.error _ => false

/-- A sequence of `poke` calls on one instance, one storage snapshot per call;
the instance state carried into the next call is the post-call state (which,
on an exception, is the unchanged pre-call state). -/
def pokeN : Sensor → List Session → List CallOutcome
  | _, [] => []
  | s, session :: rest =>
    let out := poke s session
    out :: pokeN out.sensor rest

/-- Spec-side notion of an active peer run (spec section 3, "active-for-guard-
purposes"): a stored run whose dag id is in the peer set, whose state is
RUNNING, and that has a task execution of the sensor's task id in state
SUCCESS. -/
def isActiveRun (s : Sensor) (session : Session) (dr : DagRunRec) : Bool :=
  s.external_dag_ids.contains dr.dag_id && dr.state == State.RUNNING &&
    session.task_instances.any (fun ti =>
      ti.run_id == dr.run_id && ti.task_id == s.task_id &&
        ti.state == State.SUCCESS)

/-- Spec-side count: the number of stored WorkflowRunRecords that are active
for guard purposes (each run counted once, however many matching task
executions it has). -/
def countActiveRuns (s : Sensor) (session : Session) : Nat :=
  (session.dag_runs.filter (isActiveRun s session)).length

/-- One peer id passes all three existence checks: a DagModel row exists, its
file still exists, and its reloaded DAG has the sensor's task. -/
def peerPasses (task_id : String) (session : Session) (dag_id : String) : Bool :=
  match (session.dag_models.filter (fun m => m.dag_id == dag_id)).head? with
  | none => false
  | some m =>
    session.path_exists m.fileloc && (session.get_dag m.fileloc dag_id).has_task task_id

/-! Concrete instances used to exercise the theorems below. -/

/-- A RUNNING run of peer DAG "a". -/
def run_a : DagRunRec := ⟨"a", "r1", "running"⟩

/-- A SUCCESS instance of the sensor task "wait" inside run "r1". -/
def ti_a : TaskInstanceRec := ⟨"r1", "wait", "success"⟩

/-- DagModel row for DAG "a". -/
def dm_a : DagModelRec := ⟨"a", "fa"⟩

/-- DagModel row for DAG "b". -/
def dm_b : DagModelRec := ⟨"b", "fb"⟩

/-- A freshly constructed sensor watching peers "a" and "b", task id "wait",
both flags off. -/
def exSensor : Sensor := ⟨["a", "b"], false, false, "wait", false⟩

/-- Fresh sensor with `allow_concurrent_runs = true` and
`check_existence = true`. -/
def exSensorAllow : Sensor := ⟨["a", "b"], true, true, "wait", false⟩

/-- Fresh sensor with `check_existence = true`. -/
def exSensorCheck : Sensor := ⟨["a", "b"], true, false, "wait", false⟩

/-- Fresh sensor with an empty peer list. -/
def exSensorEmpty : Sensor := ⟨[], false, false, "wait", false⟩

/-- Storage with one active peer run: "a" is RUNNING and its "wait" task
succeeded. -/
def sessActive : Session := ⟨[], fun _ => true, fun _ _ => ⟨[]⟩, [run_a], [ti_a]⟩

/-- Storage with one RUNNING peer run and no task instances at all. -/
def sessIdle : Session := ⟨[], fun _ => true, fun _ _ => ⟨[]⟩, [run_a], []⟩

/-- A RUNNING run of DAG "c", which is not a peer of `exSensor`. -/
def run_c : DagRunRec := ⟨"c", "r2", "running"⟩

/-- Storage whose only peer run is the RUNNING "a" run, alongside a non-peer
RUNNING run of "c"; no task instances at all. -/
def sessTwoRuns : Session :=
  ⟨[], fun _ => true, fun _ _ => ⟨[]⟩, [run_a, run_c], []⟩

/-- Storage with no DagModel rows: every existence lookup fails. -/
def sessNoModels : Session := ⟨[], fun _ => true, fun _ _ => ⟨["wait"]⟩, [], []⟩

/-- Storage where "a" has a DagModel row but its file is gone, and "b" has no
row at all. -/
def sessDeletedA : Session := ⟨[dm_a], fun _ => false, fun _ _ => ⟨["wait"]⟩, [], []⟩

/-- Storage where "a" passes every existence check and "b" has no DagModel
row. -/
def sessOnlyA : Session := ⟨[dm_a], fun _ => true, fun _ _ => ⟨["wait"]⟩, [], []⟩

/-- Storage where "a" has no DagModel row while "b" has a row, an existing
file, and a reloaded DAG without the "wait" task. -/
def sessOnlyB : Session := ⟨[dm_b], fun _ => true, fun _ _ => ⟨[]⟩, [], []⟩

/-- Storage where both peers have rows and files, "a" reloads with the "wait"
task but "b" reloads without it. -/
def sessNoTaskB : Session :=
  ⟨[dm_a, dm_b], fun _ => true,
    fun _ dag_id => if dag_id == "a" then ⟨["wait"]⟩ else ⟨[]⟩, [], []⟩

/-- Storage where both peers pass every existence check; "a" has an active
run. -/
def sessGoodAB : Session :=
  ⟨[dm_a, dm_b], fun _ => true, fun _ _ => ⟨["wait"]⟩, [run_a], [ti_a]⟩

/-! Helper lemmas. -/

/-- The flag field plays no role in the count query. -/
theorem get_count_flag_irrelevant (s : Sensor) (session : Session) (b : Bool) :
    get_count { s with has_checked_params := b } session = get_count s session := rfl

/-- The join count vanishes iff every RUNNING peer run has no matching task
instance. -/
theorem get_count_eq_zero_iff_all_nil (s : Sensor) (session : Session) :
    get_count s session = 0 ↔
      ∀ dr ∈ running_peer_runs s session, matching_tis s session dr = [] := by
  unfold get_count
  rw [List.sum_eq_zero_iff]
  constructor
  · intro h dr hdr
    rw [← List.length_eq_zero]
    exact h _ (List.mem_map_of_mem _ hdr)
  · intro h x hx
    obtain ⟨dr, hdr, rfl⟩ := List.mem_map.mp hx
    rw [h dr hdr]
    rfl

/-- A run is active iff it passes the DagRun filter of `get_count` and the
joined task-instance list is nonempty. -/
theorem isActiveRun_iff (s : Sensor) (session : Session) (dr : DagRunRec) :
    isActiveRun s session dr = true ↔
      (s.external_dag_ids.contains dr.dag_id && dr.state == State.RUNNING) = true ∧
        matching_tis s session dr ≠ [] := by
  unfold isActiveRun matching_tis
  rw [Bool.and_eq_true]
  constructor
  · rintro ⟨hpred, hany⟩
    refine ⟨hpred, ?_⟩
    obtain ⟨ti, hti, hp⟩ := List.any_eq_true.mp hany
    intro hnil
    rw [List.filter_eq_nil_iff] at hnil
    exact hnil ti hti hp
  · rintro ⟨hpred, hne⟩
    refine ⟨hpred, List.any_eq_true.mpr ?_⟩
    rcases hfe : session.task_instances.filter (fun ti =>
        ti.run_id == dr.run_id && ti.task_id == s.task_id &&
          ti.state == State.SUCCESS) with _ | ⟨ti, rest⟩
    · exact absurd hfe hne
    · have hmem : ti ∈ session.task_instances.filter (fun ti =>
          ti.run_id == dr.run_id && ti.task_id == s.task_id &&
            ti.state == State.SUCCESS) := by
        rw [hfe]; exact List.mem_cons_self ti rest
      have := List.mem_filter.mp hmem
      exact ⟨ti, this.1, this.2⟩

/-- The SQL join count is zero exactly when no stored run is active for guard
purposes: summing, per RUNNING peer run, the number of SUCCESS instances of
the sensor task vanishes iff no RUNNING peer run has such an instance. -/
theorem get_count_eq_zero_iff (s : Sensor) (session : Session) :
    get_count s session = 0 ↔ countActiveRuns s session = 0 := by
  rw [get_count_eq_zero_iff_all_nil]
  unfold countActiveRuns
  rw [List.length_eq_zero, List.filter_eq_nil_iff]
  constructor
  · intro h dr hdr hact
    obtain ⟨hpred, hne⟩ := (isActiveRun_iff s session dr).mp hact
    exact hne (h dr (List.mem_filter.mpr ⟨hdr, hpred⟩))
  · intro h dr hdr
    obtain ⟨hmem, hpred⟩ := List.mem_filter.mp hdr
    by_contra hne
    exact h dr hmem ((isActiveRun_iff s session dr).mpr ⟨hpred, hne⟩)

/-- Any call that returns normally under `allow_concurrent_runs = false`
returns exactly the test `get_count == 0`. -/
theorem poke_ok_result_eq_count (s : Sensor) (session : Session) (b : Bool)
    (hallow : s.allow_concurrent_runs = false)
    (h : (poke s session).result = Except.ok b) :
    b = (get_count s session == 0) := by
  unfold poke at h
  by_cases hflag : s.has_checked_params = false
  · rw [if_pos hflag, hallow] at h
    simp only [Bool.false_eq_true, if_false] at h
    cases hcheck : (if s.check_existence then
        check_for_existence s.task_id session s.external_dag_ids
      else Except.ok ()) with
    | error e =>
      rw [hcheck] at h
      exact absurd h (by simp)
    | ok u =>
      cases u
      rw [hcheck] at h
      simp only [Except.ok.injEq] at h
      exact h.symm
  · rw [if_neg hflag] at h
    simp only [Except.ok.injEq] at h
    exact h.symm

/-! Theorems settling the claims. -/

/-- C1: for every configuration with `allow_concurrent_runs = false` in which
the one-time block has completed (the call returns normally), `poke` returns
true iff the number of stored runs that are RUNNING, belong to a peer DAG, and
have a SUCCESS instance of the sensor's task id in the same run, is zero. -/
theorem poke_true_iff_no_active_runs (s : Sensor) (session : Session) (b : Bool)
    (hallow : s.allow_concurrent_runs = false)
    (h : (poke s session).result = Except.ok b) :
    b = true ↔ countActiveRuns s session = 0 := by
  rw [poke_ok_result_eq_count s session b hallow h, beq_iff_eq,
    get_count_eq_zero_iff]

/-- Witness for C1: on a storage with one active peer run the call returns
false, and indeed the active-run count is not zero. -/
theorem poke_true_iff_no_active_runs_witness :
    (false = true ↔ countActiveRuns exSensor sessActive = 0) :=
  poke_true_iff_no_active_runs exSensor sessActive false rfl rfl

/-- C2: with `allow_concurrent_runs = true`, the first call returns true
immediately, for any storage whatsoever, performing no existence, source or
checkpoint check (even when `check_existence = true`) and leaving instance and
storage untouched. -/
theorem allow_concurrent_first_call (s : Sensor) (session : Session)
    (hflag : s.has_checked_params = false)
    (hallow : s.allow_concurrent_runs = true) :
    poke s session = ⟨Except.ok true, s, session, false⟩ := by
  unfold poke
  rw [if_pos hflag, hallow]
  simp

/-- Witness for C2: a fresh sensor with both flags on, against a storage with
an active peer run, still returns true without checking anything. -/
theorem allow_concurrent_first_call_witness :
    poke exSensorAllow sessActive =
      ⟨Except.ok true, exSensorAllow, sessActive, false⟩ :=
  allow_concurrent_first_call exSensorAllow sessActive rfl rfl

/-- C3: a RUNNING peer run with no SUCCESS instance of the sensor's task id in
the same run is not active, and when it is the only peer run in storage
(other, non-peer runs may be stored alongside it) a normally returning call
(with `allow_concurrent_runs = false`) returns true. -/
theorem running_run_without_success_checkpoint (s : Sensor) (session : Session)
    (dr : DagRunRec) (b : Bool)
    (hallow : s.allow_concurrent_runs = false)
    (hmem : dr ∈ session.dag_runs)
    (honly : ∀ dr2 ∈ session.dag_runs,
      s.external_dag_ids.contains dr2.dag_id = true → dr2 = dr)
    (hpeer : s.external_dag_ids.contains dr.dag_id = true)
    (hrun : dr.state = State.RUNNING)
    (hnoti : session.task_instances.any (fun ti =>
        ti.run_id == dr.run_id && ti.task_id == s.task_id &&
          ti.state == State.SUCCESS) = false)
    (h : (poke s session).result = Except.ok b) :
    isActiveRun s session dr = false ∧ b = true := by
  have hact : isActiveRun s session dr = false := by
    unfold isActiveRun
    rw [hnoti, Bool.and_false]
  refine ⟨hact, ?_⟩
  rw [poke_ok_result_eq_count s session b hallow h, beq_iff_eq,
    get_count_eq_zero_iff]
  unfold countActiveRuns
  rw [List.length_eq_zero, List.filter_eq_nil_iff]
  intro dr2 hdr2
  by_cases hcont : s.external_dag_ids.contains dr2.dag_id = true
  · rw [honly dr2 hdr2 hcont]
    simp [hact]
  · intro hfalse
    unfold isActiveRun at hfalse
    rw [Bool.and_eq_true, Bool.and_eq_true] at hfalse
    exact hcont hfalse.1.1

/-- Witness for C3: the RUNNING "a" run (with no task instances) is the only
peer run, next to a stored non-peer "c" run - "a" is not active and the call
returns true. -/
theorem running_run_without_success_checkpoint_witness :
    isActiveRun exSensor sessTwoRuns run_a = false ∧ true = true :=
  running_run_without_success_checkpoint exSensor sessTwoRuns run_a true
    rfl (by decide) (by decide) rfl rfl rfl rfl

/-- C4 (amended): full characterization of the flag update. The flag is a
two-state Bool; a call leaves it set exactly when it was already set or the
call ran with `allow_concurrent_runs = false` and returned normally. Hence it
never reverts, and the early return of `allow_concurrent_runs = true` (like a
raising validation) leaves it unset. -/
theorem flag_update_characterization (s : Sensor) (session : Session) :
    ((poke s session).sensor).has_checked_params =
      (s.has_checked_params ||
        (!s.allow_concurrent_runs && returnedNormally (poke s session))) := by
  cases hflag : s.has_checked_params with
  | true => simp [poke, returnedNormally, hflag]
  | false =>
    cases hallow : s.allow_concurrent_runs with
    | true => simp [poke, returnedNormally, hflag, hallow]
    | false =>
      cases hcheck : (if s.check_existence then
          check_for_existence s.task_id session s.external_dag_ids
        else Except.ok ()) with
      | error e => simp [poke, returnedNormally, hflag, hallow, hcheck]
      | ok u =>
        cases u
        simp [poke, returnedNormally, hflag, hallow, hcheck]

/-- Counterexample to C4 as stated: on a fresh instance with
`allow_concurrent_runs = true` the first call returns normally, yet the flag
is still unset afterwards - the NotYetValidated-to-Validated transition does
not occur on the first call. -/
theorem flag_transition_counterexample :
    exSensorAllow.has_checked_params = false ∧
    (poke exSensorAllow sessActive).result = Except.ok true ∧
    ((poke exSensorAllow sessActive).sensor).has_checked_params = false :=
  ⟨rfl, rfl, rfl⟩

/-- C9: a call is read-only against host storage - the storage after the call
is the storage before it - and the only instance field a call may change is
the one-shot flag: peer list, both configuration flags and the task id are
preserved by every call. -/
theorem poke_read_only (s : Sensor) (session : Session) :
    (poke s session).session = session ∧
    ((poke s session).sensor).external_dag_ids = s.external_dag_ids ∧
    ((poke s session).sensor).check_existence = s.check_existence ∧
    ((poke s session).sensor).allow_concurrent_runs = s.allow_concurrent_runs ∧
    ((poke s session).sensor).task_id = s.task_id := by
  cases hflag : s.has_checked_params with
  | true => simp [poke, hflag]
  | false =>
    cases hallow : s.allow_concurrent_runs with
    | true => simp [poke, hflag, hallow]
    | false =>
      cases hcheck : (if s.check_existence then
          check_for_existence s.task_id session s.external_dag_ids
        else Except.ok ()) with
      | error e => simp [poke, hflag, hallow, hcheck]
      | ok u =>
        cases u
        simp [poke, hflag, hallow, hcheck]

/-- C10: when a call raises, the instance is returned exactly as it was, its
flag still unset, and the next call on that instance runs the
existence/source/checkpoint validation again. -/
theorem error_leaves_instance_unvalidated (s : Sensor)
    (session session2 : Session) (e : CheckError)
    (h : (poke s session).result = Except.error e) :
    (poke s session).sensor = s ∧
    ((poke s session).sensor).has_checked_params = false ∧
    (poke ((poke s session).sensor) session2).ran_existence_check = true := by
  cases hflag : s.has_checked_params with
  | true => simp [poke, hflag] at h
  | false =>
    cases hallow : s.allow_concurrent_runs with
    | true => simp [poke, hflag, hallow] at h
    | false =>
      cases hchk : s.check_existence with
      | false => simp [poke, hflag, hallow, hchk] at h
      | true =>
        cases hcheck : check_for_existence s.task_id session s.external_dag_ids with
        | ok u => cases u; simp [poke, hflag, hallow, hchk, hcheck] at h
        | error e1 =>
          have hs : (poke s session).sensor = s := by
            simp [poke, hflag, hallow, hchk, hcheck]
          refine ⟨hs, ?_, ?_⟩
          · rw [hs, hflag]
          · rw [hs]
            cases hcheck2 : check_for_existence s.task_id session2 s.external_dag_ids with
            | error e2 => simp [poke, hflag, hallow, hchk, hcheck2]
            | ok u =>
              cases u
              simp [poke, hflag, hallow, hchk, hcheck2]

/-- Witness for C10: a fresh checking sensor against a storage with no
DagModel rows raises, keeps its flag unset, and checks again on the next
call. -/
theorem error_leaves_instance_unvalidated_witness :
    (poke exSensorCheck sessNoModels).sensor = exSensorCheck ∧
    ((poke exSensorCheck sessNoModels).sensor).has_checked_params = false ∧
    (poke ((poke exSensorCheck sessNoModels).sensor)
      sessNoModels).ran_existence_check = true :=
  error_leaves_instance_unvalidated exSensorCheck sessNoModels sessNoModels
    (CheckError.notFound "a") rfl

/-- Once the flag is set, every further call leaves the instance unchanged and
never runs the existence check. -/
theorem pokeN_after_validated (sessions : List Session) (s : Sensor)
    (hflag : s.has_checked_params = true) :
    (pokeN s sessions).map CallOutcome.ran_existence_check =
      sessions.map (fun _ => false) := by
  induction sessions generalizing s with
  | nil => rfl
  | cons sess rest ih =>
    have h1 : poke s sess =
        ⟨Except.ok (get_count s sess == 0), s, sess, false⟩ := by
      unfold poke
      rw [if_neg (by simp [hflag])]
    calc (pokeN s (sess :: rest)).map CallOutcome.ran_existence_check
        = (poke s sess).ran_existence_check ::
            (pokeN (poke s sess).sensor rest).map
              CallOutcome.ran_existence_check := rfl
      _ = (sess :: rest).map (fun _ => false) := by
          rw [h1]
          exact congrArg (false :: ·) (ih s hflag)

/-- C5 (amended): on a fresh instance with `check_existence = true` and
`allow_concurrent_runs = false` whose first call returns normally, a sequence
of N calls runs the existence/source/checkpoint validation exactly once, on
call 1, and never on calls 2 through N. -/
theorem checks_run_once_when_first_call_ok (s : Sensor) (sess1 : Session)
    (rest : List Session)
    (hflag : s.has_checked_params = false)
    (hchk : s.check_existence = true)
    (hallow : s.allow_concurrent_runs = false)
    (hok : returnedNormally (poke s sess1) = true) :
    (pokeN s (sess1 :: rest)).map CallOutcome.ran_existence_check =
      true :: rest.map (fun _ => false) := by
  cases hcheck : check_for_existence s.task_id sess1 s.external_dag_ids with
  | error e =>
    have : returnedNormally (poke s sess1) = false := by
      unfold poke returnedNormally
      rw [if_pos hflag, hallow]
      simp [hchk, hcheck]
    rw [this] at hok
    exact absurd hok (by simp)
  | ok u =>
    cases u
    have hponce : poke s sess1 =
        ⟨Except.ok (get_count { s with has_checked_params := true } sess1 == 0),
          { s with has_checked_params := true }, sess1, true⟩ := by
      unfold poke
      rw [if_pos hflag, hallow]
      simp [hchk, hcheck]
    calc (pokeN s (sess1 :: rest)).map CallOutcome.ran_existence_check
        = (poke s sess1).ran_existence_check ::
            (pokeN (poke s sess1).sensor rest).map
              CallOutcome.ran_existence_check := rfl
      _ = true :: rest.map (fun _ => false) := by
          rw [hponce]
          exact congrArg (true :: ·)
            (pokeN_after_validated rest { s with has_checked_params := true } rfl)

/-- Witness for C5 (amended): two calls against a well-formed storage check
once then never again. -/
theorem checks_run_once_when_first_call_ok_witness :
    (pokeN exSensorCheck [sessGoodAB, sessGoodAB]).map
        CallOutcome.ran_existence_check =
      true :: [sessGoodAB].map (fun _ => false) :=
  checks_run_once_when_first_call_ok exSensorCheck sessGoodAB [sessGoodAB]
    rfl rfl rfl rfl

/-- Counterexample to C5 as stated: when the first call raises (here: no
DagModel rows at all), a second call runs the validation checks again, so
calling N times does not confine the checks to call 1. -/
theorem checks_rerun_counterexample :
    exSensorCheck.check_existence = true ∧
    exSensorCheck.allow_concurrent_runs = false ∧
    exSensorCheck.has_checked_params = false ∧
    (pokeN exSensorCheck [sessNoModels, sessNoModels]).map
        CallOutcome.ran_existence_check = [true, true] :=
  ⟨rfl, rfl, rfl, rfl⟩

/-- `_check_for_existence` walks past every peer that passes all three
checks. -/
theorem check_for_existence_append_passing (task_id : String)
    (session : Session) (l1 rest : List String)
    (hpass : ∀ x ∈ l1, peerPasses task_id session x = true) :
    check_for_existence task_id session (l1 ++ rest) =
      check_for_existence task_id session rest := by
  induction l1 with
  | nil => rfl
  | cons a l ih =>
    have ha := hpass a (List.mem_cons_self a l)
    unfold peerPasses at ha
    cases hm : (session.dag_models.filter (fun m => m.dag_id == a)).head? with
    | none =>
      rw [hm] at ha
      exact absurd ha (by simp)
    | some m =>
      rw [hm] at ha
      rw [Bool.and_eq_true] at ha
      rw [List.cons_append]
      have hstep : check_for_existence task_id session (a :: (l ++ rest)) =
          check_for_existence task_id session (l ++ rest) := by
        simp [check_for_existence, hm, ha.1, ha.2]
      rw [hstep]
      exact ih (fun x hx => hpass x (List.mem_cons_of_mem a hx))

/-- C6 (amended): with `check_existence = true` on a fresh instance whose peer
list contains an id with no matching DagModel row, where every peer preceding
it passes all checks, the first call raises the not-found failure naming that
id (and computes no count: the call raises instead of returning). -/
theorem missing_record_raises_not_found (s : Sensor) (session : Session)
    (l1 l2 : List String) (d : String)
    (hflag : s.has_checked_params = false)
    (hallow : s.allow_concurrent_runs = false)
    (hchk : s.check_existence = true)
    (hids : s.external_dag_ids = l1 ++ d :: l2)
    (hpass : ∀ x ∈ l1, peerPasses s.task_id session x = true)
    (hnone : ∀ m ∈ session.dag_models, ¬ m.dag_id = d) :
    (poke s session).result = Except.error (CheckError.notFound d) := by
  have hfilter : session.dag_models.filter (fun m => m.dag_id == d) = [] := by
    rw [List.filter_eq_nil_iff]
    intro m hm
    simpa using hnone m hm
  have hcheck : check_for_existence s.task_id session s.external_dag_ids =
      Except.error (CheckError.notFound d) := by
    rw [hids, check_for_existence_append_passing s.task_id session l1 _ hpass]
    unfold check_for_existence
    simp only [hfilter, List.head?_nil]
  unfold poke
  rw [if_pos hflag, hallow]
  simp [hchk, hcheck]

/-- Witness for C6 (amended): peer "a" passes, peer "b" has no row: the call
raises the not-found failure for "b". -/
theorem missing_record_raises_not_found_witness :
    (poke exSensorCheck sessOnlyA).result =
      Except.error (CheckError.notFound "b") :=
  missing_record_raises_not_found exSensorCheck sessOnlyA ["a"] [] "b"
    rfl rfl rfl rfl (by decide) (by decide)

/-- Counterexample to C6 as stated: peers ["a","b"] where "b" has no DagModel
row, yet the first call raises the deleted failure for "a" (whose file is
gone), not the not-found failure for "b". -/
theorem not_found_counterexample :
    (∀ m ∈ sessDeletedA.dag_models, ¬ m.dag_id = "b") ∧
    (poke exSensorCheck sessDeletedA).result =
      Except.error (CheckError.deleted "a") ∧
    CheckError.deleted "a" ≠ CheckError.notFound "b" :=
  ⟨by decide, rfl, by decide⟩

/-- C7 (amended): with `check_existence = true` on a fresh instance whose peer
list contains an id whose DagModel row exists, whose file exists, but whose
reloaded DAG has no task with the sensor's task id, where every peer preceding
it passes all checks, the first call raises the missing-checkpoint failure
naming that peer and the task id. -/
theorem missing_checkpoint_raises (s : Sensor) (session : Session)
    (l1 l2 : List String) (d : String) (m : DagModelRec)
    (hflag : s.has_checked_params = false)
    (hallow : s.allow_concurrent_runs = false)
    (hchk : s.check_existence = true)
    (hids : s.external_dag_ids = l1 ++ d :: l2)
    (hpass : ∀ x ∈ l1, peerPasses s.task_id session x = true)
    (hrec : (session.dag_models.filter (fun mm => mm.dag_id == d)).head? = some m)
    (hfile : session.path_exists m.fileloc = true)
    (htask : (session.get_dag m.fileloc d).has_task s.task_id = false) :
    (poke s session).result =
      Except.error (CheckError.missingTask d s.task_id) := by
  have hcheck : check_for_existence s.task_id session s.external_dag_ids =
      Except.error (CheckError.missingTask d s.task_id) := by
    rw [hids, check_for_existence_append_passing s.task_id session l1 _ hpass]
    simp [check_for_existence, hrec, hfile, htask]
  unfold poke
  rw [if_pos hflag, hallow]
  simp [hchk, hcheck]

/-- Witness for C7 (amended): peer "a" passes, peer "b" reloads without the
"wait" task: the call raises the missing-checkpoint failure for "b". -/
theorem missing_checkpoint_raises_witness :
    (poke exSensorCheck sessNoTaskB).result =
      Except.error (CheckError.missingTask "b" "wait") :=
  missing_checkpoint_raises exSensorCheck sessNoTaskB ["a"] [] "b" dm_b
    rfl rfl rfl rfl (by decide) rfl rfl rfl

/-- Counterexample to C7 as stated: peer "b" has a row, an existing file and a
reloaded DAG without the "wait" task, yet the first call raises the not-found
failure for "a" instead of the missing-checkpoint failure for "b". -/
theorem missing_checkpoint_counterexample :
    (sessOnlyB.dag_models.filter (fun mm => mm.dag_id == "b")).head? =
        some dm_b ∧
    sessOnlyB.path_exists dm_b.fileloc = true ∧
    (sessOnlyB.get_dag dm_b.fileloc "b").has_task "wait" = false ∧
    (poke exSensorCheck sessOnlyB).result =
      Except.error (CheckError.notFound "a") ∧
    CheckError.notFound "a" ≠ CheckError.missingTask "b" "wait" :=
  ⟨rfl, rfl, rfl, rfl, by decide⟩

/-- C8: with an empty peer list and `allow_concurrent_runs = false`, every
call on every storage returns true. -/
theorem empty_peer_list_always_ready (s : Sensor) (session : Session)
    (hempty : s.external_dag_ids = [])
    (hallow : s.allow_concurrent_runs = false) :
    (poke s session).result = Except.ok true := by
  have hzero : get_count s session = 0 := by
    unfold get_count running_peer_runs
    rw [hempty]
    simp
  unfold poke
  by_cases hflag : s.has_checked_params = false
  · rw [if_pos hflag, hallow]
    simp only [Bool.false_eq_true, if_false]
    cases hcheck : (if s.check_existence then
        check_for_existence s.task_id session s.external_dag_ids
      else Except.ok ()) with
    | error e =>
      by_cases hce : s.check_existence
      · rw [if_pos hce, hempty] at hcheck
        exact absurd hcheck (by simp [check_for_existence])
      · rw [if_neg hce] at hcheck
        exact absurd hcheck (by simp)
    | ok u =>
      cases u
      simp
      exact hzero
  · rw [if_neg hflag]
    simp [hzero]

/-- Witness for C8: the empty-peer sensor is ready even against a storage full
of running DAGs. -/
theorem empty_peer_list_always_ready_witness :
    (poke exSensorEmpty sessActive).result = Except.ok true :=
  empty_peer_list_always_ready exSensorEmpty sessActive rfl rfl
